import Mathlib

/-!
Shallow embedding of the order-handling Lambda in `Go Oders Function/main.go`.

The program is a stateless request handler over one record type (`Order`)
backed by a DynamoDB table.  External effects are made explicit parameters:

* JSON parsing of the POST body is an `Option Order` argument (the result of
  `json.Unmarshal`);
* the current formatted UTC time is a `String` argument `now`
  (the result of `time.Now().UTC().Format(time.RFC3339)`);
* each DynamoDB call's outcome is a `DBResult` argument, and the calls a
  handler issues are returned as an explicit `StoreCall` trace;
* a Go runtime panic (failed type assertion in `mapToOrder`) is modelled by
  the `HandlerResult.panicked` outcome, and by `Option` at the level of
  `mapToOrder` itself.

Machine integers: Go `int` is 64-bit and is modelled as the bounded
subtype `GoInt` of `Int`.  The decimal encoding and decoding
(`strconv.Itoa` / `strconv.Atoi`) are modelled digit-by-digit, including
the value `Atoi` returns alongside each error kind: 0 on a syntax error,
and the clamped boundary value (`MaxInt64` / `MinInt64`) on a range
error, exactly as `strconv.ParseInt` does for bit size 64.
-/

/-- `math.MaxInt64`, the largest value of Go's 64-bit `int`. -/
def int64Max : Int := 9223372036854775807

/-- `math.MinInt64`, the smallest value of Go's 64-bit `int`. -/
def int64Min : Int := -9223372036854775808

/-- Go's `int` type: a 64-bit signed integer. -/
abbrev GoInt : Type := { i : Int // int64Min ≤ i ∧ i ≤ int64Max }

instance : Repr GoInt where
  reprPrec i n := reprPrec i.val n

/-- The Order model of `main.go` (struct `Order`). -/
structure Order where
  orderID : String
  customerName : String
  product : String
  quantity : GoInt
  status : String
  createdAt : String
deriving DecidableEq, Repr

/-- DynamoDB attribute values used by the program: string members (`S`),
numeric members (`N`, carrying a decimal string), and a representative of
the other member kinds (`BOOL`) to model wrongly-typed attributes. -/
inductive AttributeValue where
  | S : String → AttributeValue
  | N : String → AttributeValue
  | BOOL : Bool → AttributeValue
deriving DecidableEq, Repr

/-- A DynamoDB item: the Go `map[string]types.AttributeValue`, modelled as
an association list looked up by key. -/
abbrev Item : Type := List (String × AttributeValue)

/-- Decimal digit to its character, as `strconv` prints it. -/
def digitChar : Nat → Char
  | 0 => '0'
  | 1 => '1'
  | 2 => '2'
  | 3 => '3'
  | 4 => '4'
  | 5 => '5'
  | 6 => '6'
  | 7 => '7'
  | 8 => '8'
  | _ => '9'

/-- Character to its decimal digit value (only used on digit characters). -/
def charDigit : Char → Nat
  | '1' => 1
  | '2' => 2
  | '3' => 3
  | '4' => 4
  | '5' => 5
  | '6' => 6
  | '7' => 7
  | '8' => 8
  | '9' => 9
  | _ => 0

/-- Least-significant-first decimal digit characters of `n`, with `fuel`
bounding the recursion depth (`strconv`'s division loop). -/
def natDigitsAux : Nat → Nat → List Char
  | 0, _ => []
  | _ + 1, 0 => []
  | fuel + 1, n + 1 => digitChar ((n + 1) % 10) :: natDigitsAux fuel ((n + 1) / 10)

/-- Most-significant-first decimal digits of a natural number
(empty for zero), as characters. -/
def natDigits (n : Nat) : List Char :=
  (natDigitsAux n n).reverse

lemma natDigitsAux_eq (fuel n : Nat) (h : n ≤ fuel) :
    natDigitsAux fuel n = (Nat.digits 10 n).map digitChar := by
  induction fuel generalizing n with
  | zero =>
    interval_cases n
    simp [natDigitsAux]
  | succ fuel ih =>
    cases n with
    | zero => simp [natDigitsAux]
    | succ m =>
      have hdiv : (m + 1) / 10 ≤ fuel := by
        have := Nat.div_lt_self (Nat.succ_pos m) (by norm_num : 1 < 10)
        omega
      show digitChar ((m + 1) % 10) :: natDigitsAux fuel ((m + 1) / 10) = _
      rw [ih _ hdiv, Nat.digits_def' (by norm_num : 1 < 10) (Nat.succ_pos m)]
      rfl

lemma natDigits_eq (n : Nat) : natDigits n = ((Nat.digits 10 n).map digitChar).reverse := by
  unfold natDigits
  rw [natDigitsAux_eq n n (le_refl n)]

/-- The character list `strconv.Itoa` produces for a Go `int`. -/
def intChars (i : Int) : List Char :=
  if i < 0 then '-' :: natDigits i.natAbs
  else if i = 0 then ['0']
  else natDigits i.natAbs

/-- Model of `strconv.Itoa`, wrapped by the program's `intToString`
(main.go lines 159-161). -/
def intToString (i : GoInt) : String :=
  String.mk (intChars i.val)

/-- Value of a most-significant-first list of digit characters. -/
def digitsVal (l : List Char) : Nat :=
  Nat.ofDigits 10 ((l.map charDigit).reverse)

/-- Parse a non-empty all-digit character list; `none` on any other input
(this is `strconv.ParseInt`'s digit loop: any non-digit is a syntax error). -/
def parseNat (l : List Char) : Option Nat :=
  if l = [] then none
  else if l.all Char.isDigit then some (digitsVal l)
  else none

/-- The two error kinds of `strconv.Atoi`: `malformed` is `ErrSyntax`
(returned with value 0), `outOfRange` is `ErrRange` (returned with the
clamped boundary value). -/
inductive AtoiError where
  | malformed : AtoiError
  | outOfRange : AtoiError
deriving DecidableEq, Repr

/-- `strconv.ParseInt`'s conversion of a parsed magnitude and sign to a
64-bit value and error: a failed digit parse is a syntax error with value
0; a magnitude at or above the cutoff 2^63 (above it for a negative
number) is a range error with the clamped boundary value. -/
def atoiResult (neg : Bool) (p : Option Nat) : Int × Option AtoiError :=
  match p, neg with
  | none, _ => (0, some AtoiError.malformed)
  | some m, true =>
    if 9223372036854775808 < m then (int64Min, some AtoiError.outOfRange)
    else (-(Int.ofNat m), none)
  | some m, false =>
    if 9223372036854775808 ≤ m then (int64Max, some AtoiError.outOfRange)
    else (Int.ofNat m, none)

/-- Model of `strconv.Atoi`: optional leading sign, then decimal digits,
then the 64-bit range check; returns the value together with the error,
as Go does. -/
def strconvAtoi (s : String) : Int × Option AtoiError :=
  match s.data with
  | [] => (0, some AtoiError.malformed)
  | c :: rest =>
    if c = '-' then atoiResult true (parseNat rest)
    else if c = '+' then atoiResult false (parseNat rest)
    else atoiResult false (parseNat (c :: rest))

lemma charDigit_digitChar {d : Nat} (hd : d < 10) : charDigit (digitChar d) = d := by
  interval_cases d <;> rfl

lemma isDigit_digitChar {d : Nat} (hd : d < 10) : (digitChar d).isDigit = true := by
  interval_cases d <;> rfl

lemma digitsVal_natDigits (n : Nat) : digitsVal (natDigits n) = n := by
  unfold digitsVal
  rw [natDigits_eq, List.map_reverse, List.reverse_reverse, List.map_map]
  rw [List.map_congr_left (g := id) ?_, List.map_id, Nat.ofDigits_digits]
  intro d hd
  exact charDigit_digitChar (Nat.digits_lt_base (by norm_num) hd)

lemma natDigits_ne_nil {n : Nat} (hn : n ≠ 0) : natDigits n ≠ [] := by
  rw [natDigits_eq]
  simp [Nat.digits_ne_nil_iff_ne_zero, hn]

lemma natDigits_all_digits (n : Nat) : (natDigits n).all Char.isDigit = true := by
  rw [natDigits_eq, List.all_eq_true]
  intro c hc
  rw [List.mem_reverse, List.mem_map] at hc
  obtain ⟨d, hd, rfl⟩ := hc
  exact isDigit_digitChar (Nat.digits_lt_base (by norm_num) hd)

lemma not_sign_of_isDigit {c : Char} (h : c.isDigit = true) : c ≠ '-' ∧ c ≠ '+' := by
  constructor <;> rintro rfl <;> simp [Char.isDigit] at h

lemma parseNat_natDigits {n : Nat} (hn : n ≠ 0) : parseNat (natDigits n) = some n := by
  unfold parseNat
  rw [if_neg (natDigits_ne_nil hn), if_pos (natDigits_all_digits n), digitsVal_natDigits]

lemma strconvAtoi_shape (s : String) :
    strconvAtoi s = (0, some AtoiError.malformed) ∨
      ∃ neg p, strconvAtoi s = atoiResult neg p := by
  unfold strconvAtoi
  cases s.data with
  | nil => exact Or.inl rfl
  | cons c rest =>
    refine Or.inr ?_
    by_cases h1 : c = '-'
    · refine ⟨true, parseNat rest, ?_⟩
      show (if c = '-' then atoiResult true (parseNat rest)
        else if c = '+' then atoiResult false (parseNat rest)
        else atoiResult false (parseNat (c :: rest))) = atoiResult true (parseNat rest)
      rw [if_pos h1]
    · by_cases h2 : c = '+'
      · refine ⟨false, parseNat rest, ?_⟩
        show (if c = '-' then atoiResult true (parseNat rest)
          else if c = '+' then atoiResult false (parseNat rest)
          else atoiResult false (parseNat (c :: rest))) = atoiResult false (parseNat rest)
        rw [if_neg h1, if_pos h2]
      · refine ⟨false, parseNat (c :: rest), ?_⟩
        show (if c = '-' then atoiResult true (parseNat rest)
          else if c = '+' then atoiResult false (parseNat rest)
          else atoiResult false (parseNat (c :: rest))) = atoiResult false (parseNat (c :: rest))
        rw [if_neg h1, if_neg h2]

lemma atoiResult_in_range (neg : Bool) (p : Option Nat) :
    int64Min ≤ (atoiResult neg p).1 ∧ (atoiResult neg p).1 ≤ int64Max := by
  cases p with
  | none => cases neg <;> exact ⟨by decide, by decide⟩
  | some m =>
    cases neg with
    | true =>
      by_cases h : 9223372036854775808 < m
      · simp only [atoiResult, if_pos h]
        exact ⟨by decide, by decide⟩
      · simp only [atoiResult, if_neg h, Int.ofNat_eq_natCast, int64Min, int64Max]
        omega
    | false =>
      by_cases h : 9223372036854775808 ≤ m
      · simp only [atoiResult, if_pos h]
        exact ⟨by decide, by decide⟩
      · simp only [atoiResult, if_neg h, Int.ofNat_eq_natCast, int64Min, int64Max]
        omega

lemma strconvAtoi_in_range (s : String) :
    int64Min ≤ (strconvAtoi s).1 ∧ (strconvAtoi s).1 ≤ int64Max := by
  rcases strconvAtoi_shape s with h | ⟨neg, p, h⟩
  · rw [h]
    exact ⟨by decide, by decide⟩
  · rw [h]
    exact atoiResult_in_range neg p

/-- The program's `atoi` (main.go lines 174-177): `strconv.Atoi` with the
error discarded, so the value component alone is kept — 0 on a syntax
error, the clamped boundary value on a range error. -/
def atoi (s : String) : GoInt :=
  ⟨(strconvAtoi s).1, strconvAtoi_in_range s⟩

lemma atoiResult_malformed_val (neg : Bool) (p : Option Nat)
    (h : (atoiResult neg p).2 = some AtoiError.malformed) : (atoiResult neg p).1 = 0 := by
  cases p with
  | none => rfl
  | some m =>
    cases neg <;> simp only [atoiResult] at h <;> split at h <;> simp_all

lemma atoiResult_range_val (neg : Bool) (p : Option Nat)
    (h : (atoiResult neg p).2 = some AtoiError.outOfRange) :
    (atoiResult neg p).1 = int64Max ∨ (atoiResult neg p).1 = int64Min := by
  cases p with
  | none => simp [atoiResult] at h
  | some m =>
    cases neg <;> simp only [atoiResult] at h ⊢ <;> split at h <;> simp_all

lemma strconvAtoi_malformed_val (s : String)
    (h : (strconvAtoi s).2 = some AtoiError.malformed) : (strconvAtoi s).1 = 0 := by
  rcases strconvAtoi_shape s with hs | ⟨neg, p, hs⟩
  · rw [hs]
  · rw [hs] at h ⊢
    exact atoiResult_malformed_val neg p h

lemma strconvAtoi_range_val (s : String)
    (h : (strconvAtoi s).2 = some AtoiError.outOfRange) :
    (strconvAtoi s).1 = int64Max ∨ (strconvAtoi s).1 = int64Min := by
  rcases strconvAtoi_shape s with hs | ⟨neg, p, hs⟩
  · rw [hs] at h
    simp at h
  · rw [hs] at h ⊢
    exact atoiResult_range_val neg p h

lemma strconvAtoi_digits_small (l : List Char) (hne : l ≠ [])
    (hall : l.all Char.isDigit = true) (hsmall : digitsVal l < 9223372036854775808) :
    strconvAtoi (String.mk l) = (Int.ofNat (digitsVal l), none) := by
  cases l with
  | nil => exact absurd rfl hne
  | cons c rest =>
    have hc : c.isDigit = true := by
      rw [List.all_cons, Bool.and_eq_true] at hall
      exact hall.1
    obtain ⟨h1, h2⟩ := not_sign_of_isDigit hc
    show (if c = '-' then atoiResult true (parseNat rest)
      else if c = '+' then atoiResult false (parseNat rest)
      else atoiResult false (parseNat (c :: rest))) = (Int.ofNat (digitsVal (c :: rest)), none)
    rw [if_neg h1, if_neg h2]
    unfold parseNat
    rw [if_neg (List.cons_ne_nil c rest), if_pos hall]
    simp only [atoiResult, if_neg (Nat.not_le_of_lt hsmall)]

lemma strconvAtoi_intChars (v : Int) (hlo : int64Min ≤ v) (hhi : v ≤ int64Max) :
    strconvAtoi (String.mk (intChars v)) = (v, none) := by
  unfold intChars
  by_cases hneg : v < 0
  · rw [if_pos hneg]
    have habs : v.natAbs ≠ 0 := by omega
    show (if ('-' : Char) = '-' then atoiResult true (parseNat (natDigits v.natAbs))
      else if ('-' : Char) = '+' then atoiResult false (parseNat (natDigits v.natAbs))
      else atoiResult false (parseNat ('-' :: natDigits v.natAbs))) = (v, none)
    rw [if_pos rfl, parseNat_natDigits habs]
    have hle : ¬ 9223372036854775808 < v.natAbs := by
      simp only [int64Min] at hlo
      omega
    simp only [atoiResult, if_neg hle, Int.ofNat_eq_natCast]
    have hv : -((v.natAbs : Nat) : Int) = v := by omega
    rw [hv]
  · rw [if_neg hneg]
    by_cases hz : v = 0
    · rw [if_pos hz, hz]
      rfl
    · rw [if_neg hz]
      have habs : v.natAbs ≠ 0 := by omega
      have hsmall : digitsVal (natDigits v.natAbs) < 9223372036854775808 := by
        rw [digitsVal_natDigits]
        simp only [int64Max] at hhi
        omega
      rw [strconvAtoi_digits_small _ (natDigits_ne_nil habs) (natDigits_all_digits _) hsmall,
        digitsVal_natDigits, Int.ofNat_eq_natCast]
      have hv : ((v.natAbs : Nat) : Int) = v := by omega
      rw [hv]

lemma atoi_intToString (i : GoInt) : atoi (intToString i) = i := by
  apply Subtype.ext
  show (strconvAtoi (String.mk (intChars i.val))).1 = i.val
  rw [strconvAtoi_intChars i.val i.property.1 i.property.2]

/-- Lookup of an attribute in an item (the Go map read `item[k]`). -/
def lookupAttr (item : Item) (k : String) : Option AttributeValue :=
  List.lookup k item

/-- The type assertion `item[k].(*types.AttributeValueMemberS).Value`:
succeeds only when the attribute is present and is a string member;
`none` models the runtime panic. -/
def getS (item : Item) (k : String) : Option String :=
  match lookupAttr item k with
  | some (AttributeValue.S v) => some v
  | _ => none

/-- The type assertion `item[k].(*types.AttributeValueMemberN).Value`:
succeeds only when the attribute is present and is a numeric member;
`none` models the runtime panic. -/
def getN (item : Item) (k : String) : Option String :=
  match lookupAttr item k with
  | some (AttributeValue.N v) => some v
  | _ => none

/-- The program's `mapToOrder` (main.go lines 163-172).  Each field is read
by a type assertion; `none` models the panic raised when any attribute is
absent or of the wrong member type. -/
def mapToOrder (item : Item) : Option Order :=
  match getS item "orderId", getS item "customerName", getS item "product",
      getN item "quantity", getS item "status", getS item "createdAt" with
  | some oid, some cn, some pr, some q, some st, some ca =>
    some (Order.mk oid cn pr (atoi q) st ca)
  | _, _, _, _, _, _ => none

/-- An item is well typed for `mapToOrder` when all six attributes exist
with the expected member types. -/
def wellTyped (item : Item) : Bool :=
  (getS item "orderId").isSome && (getS item "customerName").isSome &&
    (getS item "product").isSome && (getN item "quantity").isSome &&
    (getS item "status").isSome && (getS item "createdAt").isSome

/-- The `for _, item := range items` append loop of the two fetch handlers:
maps every item, aborting (`none`, i.e. panic) on the first bad item. -/
def mapOrders : List Item → Option (List Order)
  | [] => some []
  | it :: rest =>
    match mapToOrder it, mapOrders rest with
    | some o, some os => some (o :: os)
    | _, _ => none

/-- Outcome of one DynamoDB SDK call: success with a payload, or an error
(connectivity, permission, throttling, ...). -/
inductive DBResult (α : Type) where
  | ok : α → DBResult α
  | fail : DBResult α

/-- Response body content, before JSON serialisation: `jsonMessage m` is
the marshalled map with single key "message" and value `m` (the `response`
helper), `jsonOrders l` is the marshalled JSON array of orders, and
`text t` is a plain unmarshalled string body. -/
inductive Body where
  | jsonMessage : String → Body
  | jsonOrders : List Order → Body
  | text : String → Body
deriving DecidableEq, Repr

/-- The `events.APIGatewayProxyResponse` fields the program sets. -/
structure APIGatewayProxyResponse where
  statusCode : Nat
  body : Body
deriving DecidableEq, Repr

/-- The program's `response` helper (main.go lines 151-157). -/
def response (status0 : Nat) (msg : String) : APIGatewayProxyResponse :=
  APIGatewayProxyResponse.mk status0 (Body.jsonMessage msg)

/-- Result of one handler invocation: a response, or a runtime panic
(from a failed type assertion in `mapToOrder`). -/
inductive HandlerResult where
  | resp : APIGatewayProxyResponse → HandlerResult
  | panicked : HandlerResult
deriving DecidableEq, Repr

/-- A DynamoDB call issued by the handler, with its argument. -/
inductive StoreCall where
  | putItem : Item → StoreCall
  | scan : StoreCall
  | query : String → StoreCall
deriving DecidableEq, Repr

/-- The `events.APIGatewayProxyRequest` fields the program reads. -/
structure APIGatewayProxyRequest where
  httpMethod : String
  pathParameters : List (String × String)
  body : String
deriving DecidableEq, Repr

/-- The item written by `createOrder`'s `PutItem` call
(main.go lines 79-86). -/
def orderItem (o : Order) : Item :=
  [("orderId", AttributeValue.S o.orderID),
    ("customerName", AttributeValue.S o.customerName),
    ("product", AttributeValue.S o.product),
    ("quantity", AttributeValue.N (intToString o.quantity)),
    ("status", AttributeValue.S o.status),
    ("createdAt", AttributeValue.S o.createdAt)]

/-- Replace the `createdAt` field (the assignment at main.go line 74). -/
def withCreatedAt (o : Order) (now : String) : Order :=
  Order.mk o.orderID o.customerName o.product o.quantity o.status now

/-- The order `createOrder` actually writes: the parsed order, with
`createdAt` defaulted to the current time when it was empty
(main.go lines 73-75). -/
def storedOrder (order : Order) (now : String) : Order :=
  if order.createdAt = "" then withCreatedAt order now else order

/-- The program's `createOrder` (main.go lines 66-94).  `parsed` is the
result of `json.Unmarshal` on the request body, `now` the formatted current
UTC time, `putResult` the outcome of the `PutItem` call.  The second
component lists the DynamoDB calls made. -/
def createOrder (parsed : Option Order) (now : String) (putResult : DBResult Unit) :
    HandlerResult × List StoreCall :=
  match parsed with
  | none => (HandlerResult.resp (response 400 "Invalid request body"), [])
  | some order0 =>
    let order := storedOrder order0 now
    match putResult with
    | DBResult.fail =>
      (HandlerResult.resp (response 500 "Failed to create order"),
        [StoreCall.putItem (orderItem order)])
    | DBResult.ok _ =>
      (HandlerResult.resp (response 201 "Order created successfully"),
        [StoreCall.putItem (orderItem order)])

/-- The program's `getAllOrders` (main.go lines 97-117): a full `Scan`,
then the mapping loop, then a 200 with the JSON array. -/
def getAllOrders (scanResult : DBResult (List Item)) :
    HandlerResult × List StoreCall :=
  match scanResult with
  | DBResult.fail =>
    (HandlerResult.resp (response 500 "Failed to fetch orders"), [StoreCall.scan])
  | DBResult.ok items =>
    match mapOrders items with
    | none => (HandlerResult.panicked, [StoreCall.scan])
    | some orders =>
      (HandlerResult.resp (APIGatewayProxyResponse.mk 200 (Body.jsonOrders orders)),
        [StoreCall.scan])

/-- The program's `getOrderByID` (main.go lines 120-148): a `Query` on the
key, 404 on an empty result, else the mapping loop and a 200. -/
def getOrderByID (orderId : String) (queryResult : DBResult (List Item)) :
    HandlerResult × List StoreCall :=
  match queryResult with
  | DBResult.fail =>
    (HandlerResult.resp (response 500 "Failed to fetch order"), [StoreCall.query orderId])
  | DBResult.ok items =>
    if items.length = 0 then
      (HandlerResult.resp (response 404 "Order not found"), [StoreCall.query orderId])
    else
      match mapOrders items with
      | none => (HandlerResult.panicked, [StoreCall.query orderId])
      | some orders =>
        (HandlerResult.resp (APIGatewayProxyResponse.mk 200 (Body.jsonOrders orders)),
          [StoreCall.query orderId])

/-- The behaviour of the DynamoDB store for one invocation: outcome of a
`PutItem`, of a `Scan`, and of a `Query` for each key. -/
structure StoreBehavior where
  putResult : DBResult Unit
  scanResult : DBResult (List Item)
  queryResult : String → DBResult (List Item)

/-- The program's `handler` (main.go lines 42-63): dispatch on the HTTP
method, and for GET on the presence of a non-empty "orderId" path
parameter. -/
def handler (req : APIGatewayProxyRequest) (parsed : Option Order) (now : String)
    (db : StoreBehavior) : HandlerResult × List StoreCall :=
  if req.httpMethod = "POST" then
    createOrder parsed now db.putResult
  else if req.httpMethod = "GET" then
    match List.lookup "orderId" req.pathParameters with
    | some orderId =>
      if orderId = "" then getAllOrders db.scanResult
      else getOrderByID orderId (db.queryResult orderId)
    | none => getAllOrders db.scanResult
  else
    (HandlerResult.resp (APIGatewayProxyResponse.mk 405 (Body.text "Method not allowed")), [])

lemma mapToOrder_isSome (item : Item) : (mapToOrder item).isSome = wellTyped item := by
  unfold mapToOrder wellTyped
  cases getS item "orderId" <;> cases getS item "customerName" <;>
    cases getS item "product" <;> cases getN item "quantity" <;>
    cases getS item "status" <;> cases getS item "createdAt" <;> rfl

lemma mapToOrder_eq_none (item : Item) (h : wellTyped item = false) :
    mapToOrder item = none := by
  have hs := mapToOrder_isSome item
  rw [h] at hs
  exact Option.not_isSome_iff_eq_none.mp (by rw [hs]; exact Bool.false_ne_true)

lemma mapOrders_length (l : List Item) (os : List Order) (h : mapOrders l = some os) :
    os.length = l.length := by
  induction l generalizing os with
  | nil =>
    cases h
    rfl
  | cons it rest ih =>
    unfold mapOrders at h
    cases hit : mapToOrder it with
    | none =>
      rw [hit] at h
      exact absurd h (by simp)
    | some o1 =>
      rw [hit] at h
      cases hrest : mapOrders rest with
      | none =>
        rw [hrest] at h
        exact absurd h (by simp)
      | some os1 =>
        rw [hrest] at h
        injection h with h
        subst h
        simp [ih os1 hrest]

lemma mapOrders_eq_some (l : List Item) (h : ∀ it ∈ l, wellTyped it = true) :
    ∃ os, mapOrders l = some os := by
  induction l with
  | nil => exact ⟨[], rfl⟩
  | cons it rest ih =>
    obtain ⟨os, hos⟩ := ih (fun x hx => h x (List.mem_cons_of_mem _ hx))
    have hw : wellTyped it = true := h it (List.mem_cons_self it rest)
    have hsome : (mapToOrder it).isSome = true := by
      rw [mapToOrder_isSome]
      exact hw
    obtain ⟨o, ho⟩ := Option.isSome_iff_exists.mp hsome
    refine ⟨o :: os, ?_⟩
    unfold mapOrders
    rw [ho, hos]

lemma mapOrders_count (l : List Item) (os : List Order) (h : mapOrders l = some os)
    (o : Order) :
    os.count o = l.countP (fun it => decide (mapToOrder it = some o)) := by
  induction l generalizing os with
  | nil =>
    cases h
    rfl
  | cons it rest ih =>
    unfold mapOrders at h
    cases hit : mapToOrder it with
    | none =>
      rw [hit] at h
      exact absurd h (by simp)
    | some o1 =>
      rw [hit] at h
      cases hrest : mapOrders rest with
      | none =>
        rw [hrest] at h
        exact absurd h (by simp)
      | some os1 =>
        rw [hrest] at h
        injection h with h
        subst h
        rw [List.count_cons, List.countP_cons, ih os1 hrest, hit]
        by_cases heq : o1 = o
        · simp [heq]
        · simp [heq, Ne.symm heq]

lemma mapToOrder_orderItem (o : Order) : mapToOrder (orderItem o) = some o := by
  obtain ⟨a, b, c, d, e, f⟩ := o
  unfold mapToOrder orderItem getS getN lookupAttr
  simp [List.lookup, atoi_intToString]

lemma getAllOrders_calls (r : DBResult (List Item)) :
    (getAllOrders r).2 = [StoreCall.scan] := by
  cases r with
  | fail => rfl
  | ok items => cases h : mapOrders items <;> simp [getAllOrders, h]

lemma getOrderByID_calls (oid : String) (r : DBResult (List Item)) :
    (getOrderByID oid r).2 = [StoreCall.query oid] := by
  cases r with
  | fail => rfl
  | ok items =>
    by_cases h : items.length = 0
    · simp [getOrderByID, h]
    · cases hm : mapOrders items <;> simp [getOrderByID, h, hm]

lemma handler_get (req : APIGatewayProxyRequest) (parsed : Option Order) (now : String)
    (db : StoreBehavior) (hm : req.httpMethod = "GET") :
    handler req parsed now db =
      match List.lookup "orderId" req.pathParameters with
      | some orderId =>
        if orderId = "" then getAllOrders db.scanResult
        else getOrderByID orderId (db.queryResult orderId)
      | none => getAllOrders db.scanResult := by
  unfold handler
  rw [hm]
  rfl

/-- Sample records used to instantiate theorems at concrete inputs. -/
def orderA : Order :=
  Order.mk "o-1" "Alice" "Pen" ⟨2, by decide⟩ "NEW" "2024-01-01T00:00:00Z"

def orderB : Order :=
  Order.mk "o-2" "Bob" "Cup" ⟨35, by decide⟩ "SHIPPED" "2024-02-02T00:00:00Z"

def itemA : Item := orderItem orderA

def itemB : Item := orderItem orderB

/-- A stored item whose quantity attribute does not parse as an integer. -/
def badQtyItem : Item :=
  [("orderId", AttributeValue.S "o-3"),
    ("customerName", AttributeValue.S "Carol"),
    ("product", AttributeValue.S "Ink"),
    ("quantity", AttributeValue.N "12x"),
    ("status", AttributeValue.S "NEW"),
    ("createdAt", AttributeValue.S "2024-03-03T00:00:00Z")]

/-- An item missing the quantity attribute entirely. -/
def noQtyItem : Item :=
  [("orderId", AttributeValue.S "o-4"),
    ("customerName", AttributeValue.S "Dan"),
    ("product", AttributeValue.S "Mug"),
    ("status", AttributeValue.S "NEW"),
    ("createdAt", AttributeValue.S "2024-04-04T00:00:00Z")]

/-- C1: when the GET-all scan succeeds, the handler answers 200 with the
JSON array of exactly the scanned records: one output order per stored
item, each stored item contributing exactly once (the output is the scan
result mapped in store order, with no omission and no duplication). -/
theorem getAllOrders_returns_every_record (items : List Item)
    (h : ∀ it ∈ items, wellTyped it = true) :
    ∃ orders, getAllOrders (DBResult.ok items) =
        (HandlerResult.resp (APIGatewayProxyResponse.mk 200 (Body.jsonOrders orders)),
          [StoreCall.scan]) ∧
      orders.length = items.length ∧
      ∀ o : Order, orders.count o =
        items.countP (fun it => decide (mapToOrder it = some o)) := by
  obtain ⟨os, hos⟩ := mapOrders_eq_some items h
  refine ⟨os, ?_, mapOrders_length items os hos, fun o => mapOrders_count items os hos o⟩
  simp [getAllOrders, hos]

/-- Witness for C1 at a concrete two-record store. -/
theorem getAllOrders_returns_every_record_witness :
    ∃ orders, getAllOrders (DBResult.ok [itemA, itemB]) =
        (HandlerResult.resp (APIGatewayProxyResponse.mk 200 (Body.jsonOrders orders)),
          [StoreCall.scan]) ∧
      orders.length = [itemA, itemB].length ∧
      ∀ o : Order, orders.count o =
        [itemA, itemB].countP (fun it => decide (mapToOrder it = some o)) :=
  getAllOrders_returns_every_record [itemA, itemB] (by decide)

/-- C2 counterexample: on a failed scan the fetch-all handler answers 500,
but its body message is "Failed to fetch orders", not the literal
"Failed to fetch order(s)" the claim states. -/
theorem fetch_failure_body_counterexample :
    (getAllOrders DBResult.fail).1 =
        HandlerResult.resp (response 500 "Failed to fetch orders") ∧
      (getAllOrders DBResult.fail).1 ≠
        HandlerResult.resp (response 500 "Failed to fetch order(s)") := by
  constructor
  · rfl
  · decide

/-- C2 amended: every store read failure yields status 500 with a
message-JSON body; the message is "Failed to fetch orders" for fetch-all
(main.go line 104) and "Failed to fetch order" for fetch-one
(main.go line 131). -/
theorem fetch_failure_500 (orderId : String) :
    getAllOrders DBResult.fail =
        (HandlerResult.resp (response 500 "Failed to fetch orders"), [StoreCall.scan]) ∧
      getOrderByID orderId DBResult.fail =
        (HandlerResult.resp (response 500 "Failed to fetch order"),
          [StoreCall.query orderId]) := by
  exact ⟨rfl, rfl⟩

/-- C3: for every well-formed POST body, the single `PutItem` call writes
exactly the parsed order with `createdAt` defaulted to the current time
when empty; reading that item back (`mapToOrder`) returns the same field
values, so every field (including the decimal-encoded quantity) is stored
faithfully. -/
theorem createOrder_stores_input (order : Order) (now : String) (pr : DBResult Unit) :
    (createOrder (some order) now pr).2 =
        [StoreCall.putItem (orderItem (storedOrder order now))] ∧
      mapToOrder (orderItem (storedOrder order now)) = some (storedOrder order now) ∧
      (storedOrder order now).orderID = order.orderID ∧
      (storedOrder order now).customerName = order.customerName ∧
      (storedOrder order now).product = order.product ∧
      (storedOrder order now).quantity = order.quantity ∧
      (storedOrder order now).status = order.status ∧
      (storedOrder order now).createdAt =
        (if order.createdAt = "" then now else order.createdAt) := by
  refine ⟨?_, mapToOrder_orderItem _, ?_, ?_, ?_, ?_, ?_, ?_⟩
  · cases pr <;> rfl
  all_goals
    unfold storedOrder withCreatedAt
    by_cases h : order.createdAt = "" <;> simp [h]

/-- C4: a POST whose body fails to parse as an `Order` yields 400 with the
"Invalid request body" message and performs no DynamoDB call at all. -/
theorem createOrder_bad_body_400 (req : APIGatewayProxyRequest) (now : String)
    (db : StoreBehavior) (hm : req.httpMethod = "POST") :
    handler req none now db =
      (HandlerResult.resp (response 400 "Invalid request body"), []) := by
  unfold handler
  rw [hm]
  rfl

/-- Witness for C4 at a concrete malformed-body POST request. -/
theorem createOrder_bad_body_400_witness :
    (APIGatewayProxyRequest.mk "POST" [] "not json").httpMethod = "POST" ∧
      handler (APIGatewayProxyRequest.mk "POST" [] "not json") none ""
          (StoreBehavior.mk (DBResult.ok ()) (DBResult.ok []) (fun _ => DBResult.ok [])) =
        (HandlerResult.resp (response 400 "Invalid request body"), []) :=
  ⟨rfl, createOrder_bad_body_400 _ "" _ rfl⟩

/-- C5: a GET with a non-empty order id whose query succeeds with zero
matching records yields 404 with the "Order not found" message; and no
query outcome whatsoever can make fetch-one answer 200 with an empty
array. -/
theorem getOrderByID_not_found (req : APIGatewayProxyRequest) (parsed : Option Order)
    (now : String) (db : StoreBehavior) (oid : String)
    (hm : req.httpMethod = "GET")
    (hp : List.lookup "orderId" req.pathParameters = some oid)
    (hne : oid ≠ "")
    (hq : db.queryResult oid = DBResult.ok []) :
    handler req parsed now db =
        (HandlerResult.resp (response 404 "Order not found"), [StoreCall.query oid]) ∧
      ∀ qr : DBResult (List Item),
        (getOrderByID oid qr).1 ≠
          HandlerResult.resp (APIGatewayProxyResponse.mk 200 (Body.jsonOrders [])) := by
  constructor
  · rw [handler_get req parsed now db hm, hp]
    show (if oid = "" then getAllOrders db.scanResult
      else getOrderByID oid (db.queryResult oid)) = _
    rw [if_neg hne, hq]
    rfl
  · intro qr
    cases qr with
    | fail => simp [getOrderByID, response]
    | ok items =>
      cases items with
      | nil => simp [getOrderByID, response]
      | cons x xs =>
        cases hmp : mapOrders (x :: xs) with
        | none => simp [getOrderByID, hmp]
        | some os =>
          have hlen := mapOrders_length _ _ hmp
          have hos : os ≠ [] := by
            intro h0
            rw [h0] at hlen
            simp at hlen
          simp [getOrderByID, hmp, hos]

/-- Witness for C5 at a concrete GET for an id absent from the store. -/
theorem getOrderByID_not_found_witness :
    ((APIGatewayProxyRequest.mk "GET" [("orderId", "o-9")] "").httpMethod = "GET" ∧
        List.lookup "orderId"
          (APIGatewayProxyRequest.mk "GET" [("orderId", "o-9")] "").pathParameters =
          some "o-9" ∧
        "o-9" ≠ "" ∧
        (StoreBehavior.mk (DBResult.ok ()) (DBResult.ok [])
            (fun _ => DBResult.ok [])).queryResult "o-9" = DBResult.ok []) ∧
      (handler (APIGatewayProxyRequest.mk "GET" [("orderId", "o-9")] "") none ""
            (StoreBehavior.mk (DBResult.ok ()) (DBResult.ok [])
              (fun _ => DBResult.ok [])) =
          (HandlerResult.resp (response 404 "Order not found"), [StoreCall.query "o-9"]) ∧
        ∀ qr : DBResult (List Item),
          (getOrderByID "o-9" qr).1 ≠
            HandlerResult.resp (APIGatewayProxyResponse.mk 200 (Body.jsonOrders []))) :=
  ⟨⟨rfl, by decide, by decide, rfl⟩,
    getOrderByID_not_found _ none "" _ "o-9" rfl (by decide) (by decide) rfl⟩

/-- C6: a quantity (any value of Go's `int` type) encoded to its decimal
string by `intToString` and parsed back by `atoi` round-trips to the
original integer. -/
theorem quantity_roundtrip (i : GoInt) : atoi (intToString i) = i :=
  atoi_intToString i

/-- A stored item whose quantity attribute is numeric but out of the
64-bit integer range (its value is 2^63). -/
def overQtyItem : Item :=
  [("orderId", AttributeValue.S "o-5"),
    ("customerName", AttributeValue.S "Eve"),
    ("product", AttributeValue.S "Box"),
    ("quantity", AttributeValue.N "9223372036854775808"),
    ("status", AttributeValue.S "NEW"),
    ("createdAt", AttributeValue.S "2024-05-05T00:00:00Z")]

/-- The order `mapToOrder` produces for `badQtyItem`. -/
def badQtyOrder : Order :=
  Order.mk "o-3" "Carol" "Ink" (atoi "12x") "NEW" "2024-03-03T00:00:00Z"

/-- Quantity extraction: a successful `mapToOrder` yields the order whose
quantity is `atoi` of the stored quantity string. -/
lemma mapToOrder_quantity (item : Item) (o : Order) (s : String)
    (hmap : mapToOrder item = some o)
    (hq : getN item "quantity" = some s) :
    o.quantity = atoi s := by
  unfold mapToOrder at hmap
  rw [hq] at hmap
  split at hmap
  · simp_all
    rw [← hmap]
  · simp_all

/-- C7 counterexample: the stored quantity string "9223372036854775808"
(2^63) does not parse as an integer — `strconv.Atoi` reports a range
error — yet `mapToOrder` silently sets the quantity to the clamped
`MaxInt64`, not to zero. -/
theorem quantity_range_failure_counterexample :
    (strconvAtoi "9223372036854775808").2 = some AtoiError.outOfRange ∧
      mapToOrder overQtyItem =
        some (Order.mk "o-5" "Eve" "Box" (atoi "9223372036854775808") "NEW"
          "2024-05-05T00:00:00Z") ∧
      (atoi "9223372036854775808").val = int64Max ∧
      (atoi "9223372036854775808").val ≠ 0 :=
  ⟨by decide, by decide, by decide, by decide⟩

/-- C7 amended: when a stored record maps successfully and its quantity
attribute string fails to parse, the quantity is set silently from the
discarded-error `Atoi` result: zero when the failure is a syntax error,
and the clamped 64-bit boundary value when the string is numeric but out
of range. -/
theorem mapToOrder_parse_failure_quantity (item : Item) (o : Order) (s : String)
    (hmap : mapToOrder item = some o)
    (hq : lookupAttr item "quantity" = some (AttributeValue.N s)) :
    ((strconvAtoi s).2 = some AtoiError.malformed → (o.quantity).val = 0) ∧
      ((strconvAtoi s).2 = some AtoiError.outOfRange →
        (o.quantity).val = int64Max ∨ (o.quantity).val = int64Min) := by
  have hgn : getN item "quantity" = some s := by
    unfold getN
    rw [hq]
  have hquant : o.quantity = atoi s := mapToOrder_quantity item o s hmap hgn
  constructor
  · intro h
    rw [hquant]
    exact strconvAtoi_malformed_val s h
  · intro h
    rw [hquant]
    exact strconvAtoi_range_val s h

/-- Witness for C7 at a concrete item whose quantity attribute is the
syntactically invalid string "12x". -/
theorem mapToOrder_parse_failure_quantity_witness :
    (mapToOrder badQtyItem = some badQtyOrder ∧
        lookupAttr badQtyItem "quantity" = some (AttributeValue.N "12x")) ∧
      (((strconvAtoi "12x").2 = some AtoiError.malformed →
          (badQtyOrder.quantity).val = 0) ∧
        ((strconvAtoi "12x").2 = some AtoiError.outOfRange →
          (badQtyOrder.quantity).val = int64Max ∨
            (badQtyOrder.quantity).val = int64Min)) :=
  ⟨⟨by decide, by decide⟩,
    mapToOrder_parse_failure_quantity badQtyItem badQtyOrder "12x" (by decide) (by decide)⟩

/-- C8: any HTTP method other than GET and POST yields status 405 with the
plain-text body "Method not allowed" and no DynamoDB call. -/
theorem handler_method_not_allowed (req : APIGatewayProxyRequest) (parsed : Option Order)
    (now : String) (db : StoreBehavior)
    (h1 : req.httpMethod ≠ "POST") (h2 : req.httpMethod ≠ "GET") :
    handler req parsed now db =
      (HandlerResult.resp (APIGatewayProxyResponse.mk 405 (Body.text "Method not allowed")),
        []) := by
  unfold handler
  rw [if_neg h1, if_neg h2]

/-- Witness for C8 at a concrete DELETE request. -/
theorem handler_method_not_allowed_witness :
    ((APIGatewayProxyRequest.mk "DELETE" [] "").httpMethod ≠ "POST" ∧
        (APIGatewayProxyRequest.mk "DELETE" [] "").httpMethod ≠ "GET") ∧
      handler (APIGatewayProxyRequest.mk "DELETE" [] "") none ""
          (StoreBehavior.mk (DBResult.ok ()) (DBResult.ok [])
            (fun _ => DBResult.ok [])) =
        (HandlerResult.resp
            (APIGatewayProxyResponse.mk 405 (Body.text "Method not allowed")), []) :=
  ⟨⟨by decide, by decide⟩,
    handler_method_not_allowed _ none "" _ (by decide) (by decide)⟩

/-- C9: `mapToOrder` is not total: whenever any of the six expected
attributes is absent or has the wrong member type, the type assertion
panics (`none`), and a successful scan or query whose result contains such
an item makes both fetch operations crash instead of responding. -/
theorem mapToOrder_not_total (item : Item) (h : wellTyped item = false) :
    mapToOrder item = none ∧
      (getAllOrders (DBResult.ok [item])).1 = HandlerResult.panicked ∧
      ∀ oid, (getOrderByID oid (DBResult.ok [item])).1 = HandlerResult.panicked := by
  have hnone := mapToOrder_eq_none item h
  have hmo : mapOrders [item] = none := by
    simp [mapOrders, hnone]
  refine ⟨hnone, ?_, ?_⟩
  · simp [getAllOrders, hmo]
  · intro oid
    simp [getOrderByID, hmo]

/-- Witness for C9 at a concrete item lacking the quantity attribute. -/
theorem mapToOrder_not_total_witness :
    wellTyped noQtyItem = false ∧
      (mapToOrder noQtyItem = none ∧
        (getAllOrders (DBResult.ok [noQtyItem])).1 = HandlerResult.panicked ∧
        ∀ oid, (getOrderByID oid (DBResult.ok [noQtyItem])).1 = HandlerResult.panicked) :=
  ⟨by decide, mapToOrder_not_total noQtyItem (by decide)⟩

/-- C10: a GET whose path-parameter map binds "orderId" to the empty
string dispatches to the full scan, not to fetch-one; and a query (the
fetch-one store call) is only ever issued for an id that is present in
the path parameters and non-empty. -/
theorem handler_empty_orderId_full_scan (req : APIGatewayProxyRequest)
    (parsed : Option Order) (now : String) (db : StoreBehavior)
    (hm : req.httpMethod = "GET") :
    (List.lookup "orderId" req.pathParameters = some "" →
        handler req parsed now db = getAllOrders db.scanResult ∧
          (handler req parsed now db).2 = [StoreCall.scan]) ∧
      ∀ oid, (handler req parsed now db).2 = [StoreCall.query oid] →
        List.lookup "orderId" req.pathParameters = some oid ∧ oid ≠ "" := by
  rw [handler_get req parsed now db hm]
  constructor
  · intro hp
    rw [hp]
    constructor
    · show (if ("" : String) = "" then getAllOrders db.scanResult
        else getOrderByID "" (db.queryResult "")) = getAllOrders db.scanResult
      rw [if_pos rfl]
    · show ((if ("" : String) = "" then getAllOrders db.scanResult
        else getOrderByID "" (db.queryResult ""))).2 = [StoreCall.scan]
      rw [if_pos rfl]
      exact getAllOrders_calls _
  · intro oid htrace
    cases hp : List.lookup "orderId" req.pathParameters with
    | none =>
      rw [hp] at htrace
      have h2 : (getAllOrders db.scanResult).2 = [StoreCall.query oid] := htrace
      rw [getAllOrders_calls] at h2
      simp at h2
    | some v =>
      rw [hp] at htrace
      have h2 : (if v = "" then getAllOrders db.scanResult
        else getOrderByID v (db.queryResult v)).2 = [StoreCall.query oid] := htrace
      by_cases hv : v = ""
      · rw [if_pos hv, getAllOrders_calls] at h2
        simp at h2
      · rw [if_neg hv, getOrderByID_calls] at h2
        simp at h2
        subst h2
        exact ⟨rfl, hv⟩

/-- Witness for C10 at a concrete GET request whose "orderId" path
parameter is bound to the empty string. -/
theorem handler_empty_orderId_full_scan_witness :
    (APIGatewayProxyRequest.mk "GET" [("orderId", "")] "").httpMethod = "GET" ∧
      ((List.lookup "orderId"
            (APIGatewayProxyRequest.mk "GET" [("orderId", "")] "").pathParameters =
            some "" →
          handler (APIGatewayProxyRequest.mk "GET" [("orderId", "")] "") none ""
              (StoreBehavior.mk (DBResult.ok ()) (DBResult.ok [itemA])
                (fun _ => DBResult.ok [])) =
            getAllOrders (StoreBehavior.mk (DBResult.ok ()) (DBResult.ok [itemA])
              (fun _ => DBResult.ok [])).scanResult ∧
            (handler (APIGatewayProxyRequest.mk "GET" [("orderId", "")] "") none ""
              (StoreBehavior.mk (DBResult.ok ()) (DBResult.ok [itemA])
                (fun _ => DBResult.ok []))).2 = [StoreCall.scan]) ∧
        ∀ oid, (handler (APIGatewayProxyRequest.mk "GET" [("orderId", "")] "") none ""
            (StoreBehavior.mk (DBResult.ok ()) (DBResult.ok [itemA])
              (fun _ => DBResult.ok []))).2 = [StoreCall.query oid] →
          List.lookup "orderId"
              (APIGatewayProxyRequest.mk "GET" [("orderId", "")] "").pathParameters =
              some oid ∧ oid ≠ "") :=
  ⟨rfl, handler_empty_orderId_full_scan _ none "" _ rfl⟩
